import Mathlib

/-!
# Verification of the MedFuse dental-care workflow scripts

A shallow embedding of `src/DentalCareTeam.py` and `src/PatientCenteredCare.py`.

Python dictionaries, lists, strings and `None` are embedded as the inductive
type `Value`.  The external agent-orchestration framework (`tinytroupe`) is not
part of the repository; following the specification's description of its
interface, `director.assign_task(task, executor)` is modelled as a dispatch
operation that suspends the caller until the worker reports completion.  The
outcome the external worker produces for each task is abstracted as an
environment `Env : Task → Except String Value` (an `.error` models the worker
raising an exception, e.g. a timeout).

The workflow driver `run_dental_care_workflow` is embedded as a function that
returns the trace of events it performed (tasks dispatched, task completions,
plan creation) together with its Python return value (`Option Value`, `none`
for the `except`-branch) and the error lines it printed.
-/

namespace MedFuse

/-- A Python value: `None`, booleans, integers, strings, lists and dicts
(dicts as association lists in insertion order). -/
inductive Value where
  | none : Value
  | bool : Bool → Value
  | int : Int → Value
  | str : String → Value
  | list : List Value → Value
  | obj : List (String × Value) → Value

/-- Errors a workflow step can raise (Python exceptions). -/
inductive WErr where
  | capabilityMismatch (taskName workerName : String)
  | externalFailure (msg : String)
  | keyError (key : String)
  | attributeError (attr : String)
  | typeError (msg : String)
deriving DecidableEq, Repr

/-- Association-list lookup of a dict key (first binding wins, as in a Python
dict read). -/
def Value.getKey? : Value → String → Option Value
  | .obj fields, k => (fields.find? (fun p => p.1 == k)).map (·.2)
  | _, _ => Option.none

/-- Python `d.get(k, default)`: only dicts have a `.get` attribute, every
other value raises `AttributeError`. -/
def pyGetD (v : Value) (k : String) (default : Value) : Except WErr Value :=
  match v with
  | .obj _ => .ok ((v.getKey? k).getD default)
  | _ => .error (.attributeError "get")

/-- Python `d.get(k)` (missing key gives `None`). -/
def pyGet (v : Value) (k : String) : Except WErr Value :=
  pyGetD v k .none

/-- Python truthiness: `None`, `False`, `0`, `""`, `[]` and `{}` are falsy. -/
def truthy : Value → Bool
  | .none => false
  | .bool b => b
  | .int n => n != 0
  | .str s => s != ""
  | .list l => !l.isEmpty
  | .obj l => !l.isEmpty

/-- Total dict read used in statements about dicts whose key is known to be
present: the value under `k`, or `None` when absent. -/
def dictGet (v : Value) (k : String) : Value :=
  (v.getKey? k).getD .none

/-- Python `for x in v`: lists yield their elements, strings their characters,
dicts their keys; other values raise `TypeError`. -/
def pyIter : Value → Except WErr (List Value)
  | .list l => .ok l
  | .str s => .ok (s.data.map (fun c => .str (String.mk [c])))
  | .obj fields => .ok (fields.map (fun p => .str p.1))
  | _ => .error (.typeError "object is not iterable")

/-- `tinytroupe.TaskExecutor`: a worker with a name, expertise tags and a
description. -/
structure TaskExecutor where
  name : String
  expertise : List String
  description : String
deriving DecidableEq

/-- `tinytroupe.Task`: a task record with required expertise and a parameter
payload. -/
structure Task where
  name : String
  description : String
  required_expertise : List String
  parameters : Value

/-! The five team members built in `DentalCareTeam.__init__`. -/

def general_dentist : TaskExecutor :=
  { name := "General Dentist"
    expertise := ["general_dentistry", "diagnosis", "treatment_planning"]
    description := "Provides primary dental care and coordinates treatments" }

def dental_hygienist : TaskExecutor :=
  { name := "Dental Hygienist"
    expertise := ["cleaning", "preventive_care", "patient_education"]
    description := "Performs cleanings and preventive care" }

def treatment_coordinator : TaskExecutor :=
  { name := "Treatment Coordinator"
    expertise := ["treatment_planning", "scheduling", "insurance_coordination"]
    description := "Manages treatment plans and scheduling" }

def dental_specialist : TaskExecutor :=
  { name := "Dental Specialist"
    expertise := ["endodontics", "orthodontics", "oral_surgery"]
    description := "Provides specialized dental treatments" }

def patient_care_coordinator : TaskExecutor :=
  { name := "Patient Care Coordinator"
    expertise := ["patient_communication", "care_planning", "follow_up"]
    description := "Ensures patient comfort and treatment adherence" }

/-- The `self.team` role registry built in `DentalCareTeam.__init__`. -/
def team : List (String × TaskExecutor) :=
  [("general_dentist", general_dentist),
   ("dental_hygienist", dental_hygienist),
   ("treatment_coordinator", treatment_coordinator),
   ("dental_specialist", dental_specialist),
   ("patient_care_coordinator", patient_care_coordinator)]

/-! Task records built by the five dispatch methods. -/

/-- The task built by `initial_examination`. -/
def examTask (patient_data : Value) : Task :=
  { name := "Initial Examination"
    description := "Complete dental examination and treatment planning"
    required_expertise := ["general_dentistry", "diagnosis"]
    parameters := .obj [("patient_data", patient_data),
                        ("examination_type", .str "comprehensive")] }

/-- The task built by `schedule_hygiene_care`. -/
def hygieneTask (patient_id : Value) (care_type : String) : Task :=
  { name := "Dental Hygiene"
    description := "Provide dental cleaning and preventive care"
    required_expertise := ["cleaning", "preventive_care"]
    parameters := .obj [("patient_id", patient_id),
                        ("care_type", .str care_type)] }

/-- The task built by `coordinate_treatment`. -/
def coordinationTask (treatment_plan : Value) : Task :=
  { name := "Treatment Coordination"
    description := "Coordinate treatment schedule and insurance coverage"
    required_expertise := ["treatment_planning", "insurance_coordination"]
    parameters := treatment_plan }

/-- The task built by `specialist_consultation`. -/
def specialistTask (case_details : Value) : Task :=
  { name := "Specialist Consultation"
    description := "Provide specialized dental treatment"
    required_expertise := ["endodontics", "orthodontics", "oral_surgery"]
    parameters := case_details }

/-- The task built by `manage_patient_care`. -/
def careTask (patient_info : Value) : Task :=
  { name := "Patient Care Management"
    description := "Ensure patient comfort and treatment follow-up"
    required_expertise := ["patient_communication", "care_planning"]
    parameters := patient_info }

/-- The literal `preventive_care` dict of `create_treatment_plan`: it has no
`immediate_cleaning` key. -/
def pcLit : Value :=
  .obj [("cleaning_frequency", .str "6 months"),
        ("x_rays", .str "yearly"),
        ("fluoride", .str "as needed")]

/-- `create_treatment_plan` (DentalCareTeam.py lines 127-139): a dict mixing
literal values with three fields read from the examination results via
`.get(..., [])`.  On a non-dict argument the first `.get` raises. -/
def create_treatment_plan (examination_results : Value) : Except WErr Value := do
  let restorative ← pyGetD examination_results "restorative_needs" (.list [])
  let referrals ← pyGetD examination_results "referral_needs" (.list [])
  let priorities ← pyGetD examination_results "priority_treatments" (.list [])
  .ok (.obj
    [("preventive_care", pcLit),
     ("restorative_care", restorative),
     ("specialist_referrals", referrals),
     ("estimated_timeline", .str "12 months"),
     ("priority_procedures", priorities)])

/-!
## The workflow driver

`run_dental_care_workflow` (DentalCareTeam.py lines 141-184).
-/

/-- The outcome the external framework produces for each dispatched task:
`.ok result` when the worker completes it, `.error msg` when the assignment
raises (e.g. a timeout).  This is the only unknown input of a workflow run. -/
def Env : Type := Task → Except String Value

/-- An observable event of a workflow run. -/
inductive Event where
  | dispatched (t : Task)
  | taskCompleted (taskName : String) (result : Value)
  | planCreated (plan : Value)

/-- Modelled from the spec: `tinytroupe`'s `director.assign_task(task,
executor)` is an external dependency whose code is not in the repository.
Per the specification it suspends the caller until the worker reports
completion, and fails with a CapabilityMismatch error when the task's
required capabilities are not a subset of the worker's.  On success the
task's result is the value the environment assigns to the task. -/
def dispatch (env : Env) (t : Task) (w : TaskExecutor) :
    List Event × Except WErr Value :=
  if t.required_expertise.all (fun c => w.expertise.contains c) then
    match env t with
    | .ok r => ([.dispatched t, .taskCompleted t.name r], .ok r)
    | .error msg => ([.dispatched t], .error (.externalFailure msg))
  else
    ([.dispatched t], .error (.capabilityMismatch t.name w.name))

/-- `initial_examination` followed by `exam_task.complete()`: dispatch the
examination task to the general dentist and obtain its result. -/
def initial_examination (env : Env) (patient_data : Value) :
    List Event × Except WErr Value :=
  dispatch env (examTask patient_data) general_dentist

/-- `schedule_hygiene_care`: dispatch the hygiene task to the hygienist. -/
def schedule_hygiene_care (env : Env) (patient_id : Value) (care_type : String) :
    List Event × Except WErr Value :=
  dispatch env (hygieneTask patient_id care_type) dental_hygienist

/-- `coordinate_treatment`: dispatch the coordination task to the
treatment coordinator. -/
def coordinate_treatment (env : Env) (treatment_plan : Value) :
    List Event × Except WErr Value :=
  dispatch env (coordinationTask treatment_plan) treatment_coordinator

/-- `specialist_consultation`: dispatch a consultation task to the
dental specialist. -/
def specialist_consultation (env : Env) (case_details : Value) :
    List Event × Except WErr Value :=
  dispatch env (specialistTask case_details) dental_specialist

/-- `manage_patient_care`: dispatch the care-management task to the
patient care coordinator. -/
def manage_patient_care (env : Env) (patient_info : Value) :
    List Event × Except WErr Value :=
  dispatch env (careTask patient_info) patient_care_coordinator

/-- The `for referral in treatment_plan["specialist_referrals"]` loop
(lines 162-165): one `specialist_consultation` per referral, in list order,
aborting at the first failure; on success it returns the list of the
consultations' results. -/
def specialistLoop (env : Env) : List Value → List Event × Except WErr (List Value)
  | [] => ([], .ok [])
  | referral :: rest =>
    match specialist_consultation env referral with
    | (tr, .error e) => (tr, .error e)
    | (tr, .ok res) =>
      match specialistLoop env rest with
      | (tr2, .error e) => (tr ++ tr2, .error e)
      | (tr2, .ok results) => (tr ++ tr2, .ok (res :: results))

/-- Lines 151-180 of the driver, after the treatment plan exists: the
conditional hygiene step, treatment coordination, the specialist fan-out,
patient-care management, the `asyncio.gather` barrier (a no-op here since
every dispatch already awaited completion) and the aggregation of the
result dictionary. -/
def afterPlan (env : Env) (patient_data exam_results treatment_plan : Value) :
    List Event × Except WErr Value :=
  match treatment_plan.getKey? "preventive_care" with
  | Option.none => ([], .error (.keyError "preventive_care"))
  | some preventive =>
    let hygieneStep : List Event × Except WErr Unit :=
      if truthy (dictGet preventive "immediate_cleaning") then
        match patient_data.getKey? "id" with
        | Option.none => ([], .error (.keyError "id"))
        | some pid =>
          match schedule_hygiene_care env pid "comprehensive_cleaning" with
          | (tr, .error e) => (tr, .error e)
          | (tr, .ok _) => (tr, .ok ())
      else ([], .ok ())
    match hygieneStep with
    | (trH, .error e) => (trH, .error e)
    | (trH, .ok _) =>
      match coordinate_treatment env treatment_plan with
      | (trC, .error e) => (trH ++ trC, .error e)
      | (trC, .ok coordination_results) =>
        match treatment_plan.getKey? "specialist_referrals" with
        | Option.none => (trH ++ trC, .error (.keyError "specialist_referrals"))
        | some referralsValue =>
          match pyIter referralsValue with
          | .error e => (trH ++ trC, .error e)
          | .ok referrals =>
            match specialistLoop env referrals with
            | (trS, .error e) => (trH ++ trC ++ trS, .error e)
            | (trS, .ok specialist_results) =>
              match manage_patient_care env patient_data with
              | (trP, .error e) => (trH ++ trC ++ trS ++ trP, .error e)
              | (trP, .ok care_results) =>
                (trH ++ trC ++ trS ++ trP,
                 .ok (.obj
                   [("examination", exam_results),
                    ("treatment_plan", treatment_plan),
                    ("coordination_status", coordination_results),
                    ("specialist_consultations", .list specialist_results),
                    ("patient_care_status", care_results)]))

/-- The body of the `try` block of `run_dental_care_workflow`: examination,
plan creation, then `afterPlan`.  Returns the event trace together with the
aggregated result or the first exception raised. -/
def runInner (env : Env) (patient_data : Value) : List Event × Except WErr Value :=
  match initial_examination env patient_data with
  | (tr, .error e) => (tr, .error e)
  | (tr, .ok exam_results) =>
    match create_treatment_plan exam_results with
    | .error e => (tr, .error e)
    | .ok treatment_plan =>
      match afterPlan env patient_data exam_results treatment_plan with
      | (tr2, r) => (tr ++ (.planCreated treatment_plan :: tr2), r)

/-- The observable outcome of `run_dental_care_workflow`: the event trace,
the Python return value, and the lines printed to stdout. -/
structure RunOutput where
  trace : List Event
  result : Option Value
  printed : List String

/-- The message the `except` branch prints for an exception. -/
def errLine : WErr → String
  | .capabilityMismatch t w => "Error in dental care workflow: capability mismatch for " ++ t ++ " on " ++ w
  | .externalFailure msg => "Error in dental care workflow: " ++ msg
  | .keyError k => "Error in dental care workflow: " ++ k
  | .attributeError a => "Error in dental care workflow: no attribute " ++ a
  | .typeError msg => "Error in dental care workflow: " ++ msg

/-- `run_dental_care_workflow` (lines 141-184): run the `try` body; on
success return the aggregated dictionary, on any exception print an error
line and return `None`. -/
def run_dental_care_workflow (env : Env) (patient_data : Value) : RunOutput :=
  match runInner env patient_data with
  | (tr, .ok v) => { trace := tr, result := some v, printed := [] }
  | (tr, .error e) => { trace := tr, result := Option.none, printed := [errLine e] }

/-- The tasks dispatched during a trace that carry a given task name. -/
def dispatchedNamed (tr : List Event) (n : String) : List Task :=
  tr.filterMap (fun e =>
    match e with
    | .dispatched t => if t.name == n then some t else Option.none
    | _ => Option.none)

/-!
## PatientCenteredCare (src/PatientCenteredCare.py)

The class method bodies are embedded as functions on `Value`.  Several
helper methods the bodies call (`_identify_alternatives`, `_setup_counseling`,
`_arrange_family_services`, `_organize_practical_help`, `_provide_education`,
`_find_matching_studies`, `_identify_direct_benefits`,
`_create_communication_plan`) are not defined anywhere on the class, so the
attribute access `self._name` raises `AttributeError` in Python; each is
embedded as the corresponding error.
-/

/-- The value of a successful outcome (`Value.none` for a failed one). -/
def okOr {ε : Type} : Except ε Value → Value
  | .ok v => v
  | .error _ => Value.none

/-- Does the trace dispatch a task with the given name? -/
def hasDispatchNamed (tr : List Event) (n : String) : Bool :=
  tr.any (fun e =>
    match e with
    | .dispatched t => t.name == n
    | _ => false)

/-- Does a completion of a task named `doneName` occur strictly before a
dispatch of a task named `dispName` in the trace? -/
def completionPrecedesDispatch : List Event → String → String → Bool
  | [], _, _ => false
  | .taskCompleted n _ :: rest, doneName, dispName =>
    (n == doneName && hasDispatchNamed rest dispName)
      || completionPrecedesDispatch rest doneName dispName
  | _ :: rest, doneName, dispName =>
    completionPrecedesDispatch rest doneName dispName

/-! Concrete inputs used by the end-to-end scenario of the specification and
by the witnesses: patient "P1" and an examination result with a single
orthodontic referral. -/

/-- The referral `{"specialist": "ortho"}`. -/
def refOrtho : Value := .obj [("specialist", .str "ortho")]

/-- The examination result of the end-to-end scenario. -/
def examOrtho : Value :=
  .obj [("restorative_needs", .list []),
        ("referral_needs", .list [refOrtho]),
        ("priority_treatments", .list [])]

/-- The patient record of the end-to-end scenario. -/
def patientP1 : Value := .obj [("id", .str "P1")]

/-- A generic successful worker result. -/
def resultDone : Value := .obj [("status", .str "completed")]

/-- An environment where the examination yields `examOrtho` and every other
task completes with `resultDone`. -/
def envOrtho : Env := fun t =>
  if t.name == "Initial Examination" then .ok examOrtho else .ok resultDone

/-- The treatment plan `create_treatment_plan` derives from `examOrtho`. -/
def planOrtho : Value :=
  .obj [("preventive_care", pcLit),
        ("restorative_care", .list []),
        ("specialist_referrals", .list [refOrtho]),
        ("estimated_timeline", .str "12 months"),
        ("priority_procedures", .list [])]

/-- An environment where every worker raises. -/
def envFail : Env := fun _ => .error "worker timeout"

/-- The treatment plan `create_treatment_plan` derives from the empty dict. -/
def planEmpty : Value :=
  .obj [("preventive_care", pcLit),
        ("restorative_care", .list []),
        ("specialist_referrals", .list []),
        ("estimated_timeline", .str "12 months"),
        ("priority_procedures", .list [])]

/-- Observer used to separate treatment plans: the number of specialist
referrals of a successfully created plan. -/
def referralCount : Except WErr Value → Nat
  | .ok p =>
    match p.getKey? "specialist_referrals" with
    | some (.list l) => l.length
    | _ => 0
  | .error _ => 0

/-- `self._identify_alternatives`: the class defines no such method, so the
attribute access raises `AttributeError`. -/
def identify_alternatives (_preferences : Value) : Except WErr Value :=
  .error (.attributeError "_identify_alternatives")

/-- `self._setup_counseling`: undefined on the class, raises. -/
def setup_counseling (_preferences : Value) : Except WErr Value :=
  .error (.attributeError "_setup_counseling")

/-- `self._find_matching_studies`: undefined on the class, raises. -/
def find_matching_studies (_preferences : Value) : Except WErr Value :=
  .error (.attributeError "_find_matching_studies")

/-- `_design_treatment_plan` (PatientCenteredCare.py lines 96-104): the dict
values are evaluated in order, so `preferences.get(...)` runs first and the
`self._identify_alternatives(preferences)` access raises. -/
def design_treatment_plan (preferences : Value) : Except WErr Value := do
  let primary ← pyGet preferences "preferred_treatment_approach"
  let alternatives ← identify_alternatives preferences
  let comfort ← pyGet preferences "comfort_priorities"
  let flexibility ← pyGet preferences "scheduling_needs"
  .ok (.obj
    [("primary_treatment", primary),
     ("alternative_options", alternatives),
     ("comfort_measures", comfort),
     ("schedule_flexibility", flexibility)])

/-- `_arrange_support_services` (lines 106-114): the first dict value calls
the undefined `self._setup_counseling`, which raises. -/
def arrange_support_services (preferences : Value) : Except WErr Value := do
  let emotional ← setup_counseling preferences
  .ok (.obj [("emotional_support", emotional)])

/-- `_evaluate_research_options` (lines 116-126): returns the opt-out dict
when the patient is not interested; otherwise the first dict value calls the
undefined `self._find_matching_studies`, which raises. -/
def evaluate_research_options (preferences : Value) : Except WErr Value := do
  let interested ← pyGetD preferences "interested_in_research" (.bool false)
  if !truthy interested then
    .ok (.obj [("participation", .str "None - patient preference")])
  else do
    let studies ← find_matching_studies preferences
    .ok (.obj [("suitable_studies", studies)])

/-- `create_care_plan` (lines 88-94): builds the care-plan dict; its first
value is `self._design_treatment_plan(patient_preferences)`, so any exception
raised there propagates to the caller. -/
def create_care_plan (patient_preferences : Value) : Except WErr Value := do
  let tp ← design_treatment_plan patient_preferences
  let ss ← arrange_support_services patient_preferences
  let rp ← evaluate_research_options patient_preferences
  .ok (.obj
    [("treatment_plan", tp),
     ("support_services", ss),
     ("research_participation", rp)])

/-- The expected event sequence of the specialist fan-out loop when every
consultation succeeds: dispatch and completion of one task per referral, in
list order. -/
def specTrace (env : Env) : List Value → List Event
  | [] => []
  | r :: rest =>
    .dispatched (specialistTask r)
      :: .taskCompleted "Specialist Consultation" (okOr (env (specialistTask r)))
      :: specTrace env rest

/-- The results of the specialist consultations, one per referral. -/
def specResults (env : Env) (refs : List Value) : List Value :=
  refs.map (fun r => okOr (env (specialistTask r)))

/-! ## Helper lemmas -/

theorem dispatch_ok_eq (env : Env) (t : Task) (w : TaskExecutor) (v : Value)
    (hcap : (t.required_expertise.all (fun c => w.expertise.contains c)) = true)
    (hv : env t = .ok v) :
    dispatch env t w = ([.dispatched t, .taskCompleted t.name v], .ok v) := by
  unfold dispatch
  rw [hcap, hv]
  rfl

theorem dispatch_error_eq (env : Env) (t : Task) (w : TaskExecutor) (msg : String)
    (hcap : (t.required_expertise.all (fun c => w.expertise.contains c)) = true)
    (hv : env t = .error msg) :
    dispatch env t w = ([.dispatched t], .error (.externalFailure msg)) := by
  unfold dispatch
  rw [hcap, hv]
  rfl

theorem dispatch_cap_false_eq (env : Env) (t : Task) (w : TaskExecutor)
    (hcap : (t.required_expertise.all (fun c => w.expertise.contains c)) = false) :
    dispatch env t w = ([.dispatched t], .error (.capabilityMismatch t.name w.name)) := by
  unfold dispatch
  rw [hcap]
  rfl

theorem dispatch_fst_cases (env : Env) (t : Task) (w : TaskExecutor) :
    (dispatch env t w).1 = [.dispatched t] ∨
      ∃ v, (dispatch env t w).1 = [.dispatched t, .taskCompleted t.name v] := by
  unfold dispatch
  split
  · cases env t <;> simp
  · simp

theorem dispatch_snd_ok (env : Env) (t : Task) (w : TaskExecutor) (v : Value)
    (h : (dispatch env t w).2 = .ok v) : env t = .ok v := by
  unfold dispatch at h
  split at h
  · cases henv : env t <;> rw [henv] at h <;> simp_all
  · simp at h

theorem dispatch_ok_inv (env : Env) (t : Task) (w : TaskExecutor) (v : Value)
    (h : (dispatch env t w).2 = .ok v) :
    dispatch env t w = ([.dispatched t, .taskCompleted t.name v], .ok v) := by
  by_cases hcap : (t.required_expertise.all (fun c => w.expertise.contains c)) = true
  · cases henv : env t with
    | ok r =>
      have he := dispatch_ok_eq env t w r hcap henv
      rw [he] at h ⊢
      simp only [Except.ok.injEq] at h
      rw [h]
    | error msg =>
      rw [dispatch_error_eq env t w msg hcap henv] at h
      simp at h
  · rw [dispatch_cap_false_eq env t w (by simpa using hcap)] at h
    simp at h

theorem mem_dispatch_fst (env : Env) (t t' : Task) (w : TaskExecutor)
    (h : Event.dispatched t' ∈ (dispatch env t w).1) : t' = t := by
  rcases dispatch_fst_cases env t w with hc | ⟨v, hc⟩ <;> rw [hc] at h <;>
    simp_all

theorem dispatchedNamed_nil (n : String) : dispatchedNamed [] n = [] := rfl

theorem dispatchedNamed_append (l₁ l₂ : List Event) (n : String) :
    dispatchedNamed (l₁ ++ l₂) n = dispatchedNamed l₁ n ++ dispatchedNamed l₂ n := by
  simp [dispatchedNamed, List.filterMap_append]

theorem dispatchedNamed_dispatch (env : Env) (t : Task) (w : TaskExecutor) (n : String) :
    dispatchedNamed (dispatch env t w).1 n = if t.name == n then [t] else [] := by
  rcases dispatch_fst_cases env t w with hc | ⟨v, hc⟩ <;> rw [hc] <;>
    simp [dispatchedNamed] <;> split <;> simp_all

theorem examTask_cap (p : Value) :
    ((examTask p).required_expertise.all
      (fun c => general_dentist.expertise.contains c)) = true := rfl

theorem hygieneTask_cap (pid : Value) (ct : String) :
    ((hygieneTask pid ct).required_expertise.all
      (fun c => dental_hygienist.expertise.contains c)) = true := rfl

theorem coordinationTask_cap (plan : Value) :
    ((coordinationTask plan).required_expertise.all
      (fun c => treatment_coordinator.expertise.contains c)) = true := rfl

theorem specialistTask_cap (r : Value) :
    ((specialistTask r).required_expertise.all
      (fun c => dental_specialist.expertise.contains c)) = true := rfl

theorem careTask_cap (p : Value) :
    ((careTask p).required_expertise.all
      (fun c => patient_care_coordinator.expertise.contains c)) = true := rfl

theorem run_eq_of_ok (env : Env) (p : Value) (tr : List Event) (v : Value)
    (h : runInner env p = (tr, .ok v)) :
    run_dental_care_workflow env p = ⟨tr, some v, []⟩ := by
  unfold run_dental_care_workflow
  rw [h]

theorem run_eq_of_error (env : Env) (p : Value) (tr : List Event) (e : WErr)
    (h : runInner env p = (tr, .error e)) :
    run_dental_care_workflow env p = ⟨tr, Option.none, [errLine e]⟩ := by
  unfold run_dental_care_workflow
  rw [h]

theorem run_trace_fst (env : Env) (p : Value) :
    (run_dental_care_workflow env p).trace = (runInner env p).1 := by
  rcases h : runInner env p with ⟨tr, r⟩
  cases r with
  | ok v => rw [run_eq_of_ok env p tr v h]
  | error e => rw [run_eq_of_error env p tr e h]

theorem run_isSome_inv (env : Env) (p : Value)
    (h : (run_dental_care_workflow env p).result.isSome = true) :
    ∃ tr v, runInner env p = (tr, .ok v) := by
  rcases hr : runInner env p with ⟨tr, r⟩
  cases r with
  | ok v => exact ⟨tr, v, rfl⟩
  | error e =>
    rw [run_eq_of_error env p tr e hr] at h
    simp at h

theorem create_plan_ok {er plan : Value} (h : create_treatment_plan er = .ok plan) :
    ∃ fields, er = .obj fields ∧
      plan = .obj
        [("preventive_care", pcLit),
         ("restorative_care", (er.getKey? "restorative_needs").getD (.list [])),
         ("specialist_referrals", (er.getKey? "referral_needs").getD (.list [])),
         ("estimated_timeline", .str "12 months"),
         ("priority_procedures", (er.getKey? "priority_treatments").getD (.list []))] := by
  cases er with
  | obj fields =>
    refine ⟨fields, rfl, ?_⟩
    have hc : create_treatment_plan (Value.obj fields) = .ok (.obj
        [("preventive_care", pcLit),
         ("restorative_care", ((Value.obj fields).getKey? "restorative_needs").getD (.list [])),
         ("specialist_referrals", ((Value.obj fields).getKey? "referral_needs").getD (.list [])),
         ("estimated_timeline", .str "12 months"),
         ("priority_procedures", ((Value.obj fields).getKey? "priority_treatments").getD (.list []))]) := rfl
    rw [hc] at h
    simp only [Except.ok.injEq] at h
    exact h.symm
  | none => exact Except.noConfusion h
  | bool b => exact Except.noConfusion h
  | int n => exact Except.noConfusion h
  | str s => exact Except.noConfusion h
  | list l => exact Except.noConfusion h

theorem plan_preventive_of_ok {er plan : Value}
    (h : create_treatment_plan er = .ok plan) :
    plan.getKey? "preventive_care" = some pcLit := by
  obtain ⟨fields, _, hp⟩ := create_plan_ok h
  rw [hp]
  rfl

theorem plan_referrals_of_ok {er plan : Value}
    (h : create_treatment_plan er = .ok plan) :
    plan.getKey? "specialist_referrals" =
      some ((er.getKey? "referral_needs").getD (.list [])) := by
  obtain ⟨fields, hf, hp⟩ := create_plan_ok h
  rw [hp]
  rfl

theorem truthy_pcLit : truthy (dictGet pcLit "immediate_cleaning") = false := rfl

theorem dispatchedNamed_cons (e : Event) (l : List Event) (n : String) :
    dispatchedNamed (e :: l) n =
      (match e with
       | .dispatched t => if t.name == n then [t] else []
       | _ => []) ++ dispatchedNamed l n := by
  cases e with
  | dispatched t =>
    by_cases hn : t.name = n
    · simp [dispatchedNamed, List.filterMap_cons, hn]
    · simp [dispatchedNamed, List.filterMap_cons, hn]
  | taskCompleted n' r => simp [dispatchedNamed, List.filterMap_cons]
  | planCreated p => simp [dispatchedNamed, List.filterMap_cons]

theorem runInner_eq (env : Env) (patient exam_r plan : Value)
    (He : env (examTask patient) = .ok exam_r)
    (Hp : create_treatment_plan exam_r = .ok plan) :
    runInner env patient =
      (.dispatched (examTask patient) :: .taskCompleted "Initial Examination" exam_r ::
        .planCreated plan :: (afterPlan env patient exam_r plan).1,
       (afterPlan env patient exam_r plan).2) := by
  have hd := dispatch_ok_eq env (examTask patient) general_dentist exam_r (examTask_cap patient) He
  unfold runInner initial_examination
  rw [hd]
  dsimp only
  rw [Hp]
  dsimp only
  rcases ha : afterPlan env patient exam_r plan with ⟨tr2, r2⟩
  rfl

theorem specialistLoop_allOk (env : Env) (Hok : ∀ t, ∃ v, env t = .ok v)
    (refs : List Value) :
    specialistLoop env refs = (specTrace env refs, .ok (specResults env refs)) := by
  induction refs with
  | nil => rfl
  | cons r rest ih =>
    obtain ⟨v, hv⟩ := Hok (specialistTask r)
    have hd := dispatch_ok_eq env (specialistTask r) dental_specialist v (specialistTask_cap r) hv
    simp only [specialistLoop, specialist_consultation]
    rw [hd]
    dsimp only
    rw [ih]
    dsimp only
    simp only [specTrace, specResults, List.map_cons]
    rw [hv]
    rfl

theorem specialistLoop_named (env : Env) (refs : List Value) (n : String)
    (hn : ("Specialist Consultation" == n) = false) :
    dispatchedNamed (specialistLoop env refs).1 n = [] := by
  induction refs with
  | nil => rfl
  | cons r rest ih =>
    simp only [specialistLoop, specialist_consultation]
    rcases hd : dispatch env (specialistTask r) dental_specialist with ⟨tr, res⟩
    have htr : dispatchedNamed tr n = [] := by
      have h2 := dispatchedNamed_dispatch env (specialistTask r) dental_specialist n
      rw [hd] at h2
      dsimp only at h2
      rw [h2]
      have hname : ((specialistTask r).name == n) = false := hn
      rw [hname]
      rfl
    cases res with
    | error e =>
      dsimp only
      exact htr
    | ok v =>
      rcases hl : specialistLoop env rest with ⟨tr2, res2⟩
      rw [hl] at ih
      dsimp only at ih
      cases res2 with
      | error e =>
        dsimp only
        rw [dispatchedNamed_append, htr, ih]
        rfl
      | ok results =>
        dsimp only
        rw [dispatchedNamed_append, htr, ih]
        rfl

theorem specialistLoop_ok_named (env : Env) (refs : List Value) (rs : List Value)
    (h : (specialistLoop env refs).2 = .ok rs) :
    dispatchedNamed (specialistLoop env refs).1 "Specialist Consultation" =
      refs.map specialistTask := by
  induction refs generalizing rs with
  | nil => rfl
  | cons r rest ih =>
    simp only [specialistLoop, specialist_consultation] at h ⊢
    rcases hd : dispatch env (specialistTask r) dental_specialist with ⟨tr, res⟩
    rw [hd] at h
    cases res with
    | error e =>
      simp at h
    | ok v =>
      have htr : dispatchedNamed tr "Specialist Consultation" = [specialistTask r] := by
        have h2 := dispatchedNamed_dispatch env (specialistTask r) dental_specialist
          "Specialist Consultation"
        rw [hd] at h2
        dsimp only at h2
        rw [h2]
        rfl
      rcases hl : specialistLoop env rest with ⟨tr2, res2⟩
      rw [hl] at h
      cases res2 with
      | error e =>
        simp at h
      | ok results =>
        dsimp only
        rw [dispatchedNamed_append, htr]
        have hrest := ih results (by rw [hl])
        rw [hl] at hrest
        dsimp only at hrest
        rw [hrest]
        rfl

theorem specialistLoop_ok_env (env : Env) (refs : List Value) (rs : List Value)
    (h : (specialistLoop env refs).2 = .ok rs) :
    ∀ t, Event.dispatched t ∈ (specialistLoop env refs).1 → ∃ v, env t = .ok v := by
  induction refs generalizing rs with
  | nil => intro t ht; exact absurd ht (by simp [specialistLoop])
  | cons r rest ih =>
    simp only [specialistLoop, specialist_consultation] at h ⊢
    rcases hd : dispatch env (specialistTask r) dental_specialist with ⟨tr, res⟩
    rw [hd] at h
    cases res with
    | error e =>
      simp at h
    | ok v =>
      rcases hl : specialistLoop env rest with ⟨tr2, res2⟩
      rw [hl] at h
      cases res2 with
      | error e =>
        simp at h
      | ok results =>
        dsimp only
        intro t ht
        rcases List.mem_append.mp ht with hmem | hmem
        · have ht' : t = specialistTask r := by
            have := mem_dispatch_fst env (specialistTask r) t dental_specialist
            rw [hd] at this
            exact this hmem
          refine ⟨v, ?_⟩
          rw [ht']
          exact dispatch_snd_ok env (specialistTask r) dental_specialist v (by rw [hd])
        · have := ih results (by rw [hl])
          rw [hl] at this
          exact this t hmem

theorem afterPlan_allOk (env : Env) (patient exam_r plan pc srv : Value)
    (refs : List Value)
    (Hok : ∀ t, ∃ v, env t = .ok v)
    (hpc : plan.getKey? "preventive_care" = some pc)
    (hcond : truthy (dictGet pc "immediate_cleaning") = false)
    (hsr : plan.getKey? "specialist_referrals" = some srv)
    (hrefs : pyIter srv = .ok refs) :
    afterPlan env patient exam_r plan =
      (.dispatched (coordinationTask plan)
        :: .taskCompleted "Treatment Coordination" (okOr (env (coordinationTask plan)))
        :: (specTrace env refs
            ++ [.dispatched (careTask patient),
                .taskCompleted "Patient Care Management" (okOr (env (careTask patient)))]),
       .ok (.obj
         [("examination", exam_r),
          ("treatment_plan", plan),
          ("coordination_status", okOr (env (coordinationTask plan))),
          ("specialist_consultations", .list (specResults env refs)),
          ("patient_care_status", okOr (env (careTask patient)))])) := by
  obtain ⟨vc, hvc⟩ := Hok (coordinationTask plan)
  obtain ⟨vp, hvp⟩ := Hok (careTask patient)
  have hdc := dispatch_ok_eq env (coordinationTask plan) treatment_coordinator vc
    (coordinationTask_cap plan) hvc
  have hdp := dispatch_ok_eq env (careTask patient) patient_care_coordinator vp
    (careTask_cap patient) hvp
  have hloop := specialistLoop_allOk env Hok refs
  have hcond' : ¬(truthy (dictGet pc "immediate_cleaning") = true) := by
    simp [hcond]
  unfold afterPlan
  rw [hpc]
  dsimp only
  rw [if_neg hcond']
  dsimp only
  unfold coordinate_treatment manage_patient_care
  rw [hdc]
  dsimp only
  rw [hsr]
  dsimp only
  rw [hrefs]
  dsimp only
  rw [hloop]
  dsimp only
  rw [hdp]
  dsimp only
  rw [hvc, hvp]
  rfl

theorem dispatchedNamed_of_dispatch_ne (env : Env) (t : Task) (w : TaskExecutor)
    (n : String) (tr : List Event) (res : Except WErr Value)
    (hne : (t.name == n) = false) (hd : dispatch env t w = (tr, res)) :
    dispatchedNamed tr n = [] := by
  have h2 := dispatchedNamed_dispatch env t w n
  rw [hd] at h2
  dsimp only at h2
  rw [h2, hne]
  rfl

theorem dispatchedNamed_of_dispatch_self (env : Env) (t : Task) (w : TaskExecutor)
    (n : String) (tr : List Event) (res : Except WErr Value)
    (hne : (t.name == n) = true) (hd : dispatch env t w = (tr, res)) :
    dispatchedNamed tr n = [t] := by
  have h2 := dispatchedNamed_dispatch env t w n
  rw [hd] at h2
  dsimp only at h2
  rw [h2, hne]
  rfl

theorem afterPlan_ok_named (env : Env) (patient exam_r plan pc : Value)
    (refs : List Value) (v : Value)
    (hpc : plan.getKey? "preventive_care" = some pc)
    (hcond : truthy (dictGet pc "immediate_cleaning") = false)
    (hsr : plan.getKey? "specialist_referrals" = some (.list refs))
    (hv : (afterPlan env patient exam_r plan).2 = .ok v) :
    dispatchedNamed (afterPlan env patient exam_r plan).1 "Specialist Consultation" =
      refs.map specialistTask := by
  have hcond' : ¬(truthy (dictGet pc "immediate_cleaning") = true) := by
    simp [hcond]
  unfold afterPlan at hv ⊢
  rw [hpc] at hv ⊢
  dsimp only at hv ⊢
  rw [if_neg hcond'] at hv ⊢
  dsimp only [coordinate_treatment, manage_patient_care] at hv ⊢
  rcases hdc : dispatch env (coordinationTask plan) treatment_coordinator with ⟨trC, resC⟩
  rw [hdc] at hv
  cases resC with
  | error e => simp at hv
  | ok vc =>
    rw [hsr] at hv ⊢
    dsimp only [pyIter] at hv ⊢
    rcases hsl : specialistLoop env refs with ⟨trS, resS⟩
    rw [hsl] at hv
    cases resS with
    | error e => simp at hv
    | ok rs =>
      rcases hdp : dispatch env (careTask patient) patient_care_coordinator with ⟨trP, resP⟩
      rw [hdp] at hv
      cases resP with
      | error e => simp at hv
      | ok vp =>
        dsimp only
        rw [dispatchedNamed_append, dispatchedNamed_append, dispatchedNamed_append]
        rw [dispatchedNamed_of_dispatch_ne env (coordinationTask plan)
          treatment_coordinator "Specialist Consultation" trC (.ok vc) rfl hdc]
        rw [dispatchedNamed_of_dispatch_ne env (careTask patient)
          patient_care_coordinator "Specialist Consultation" trP (.ok vp) rfl hdp]
        have hS := specialistLoop_ok_named env refs rs (by rw [hsl])
        rw [hsl] at hS
        dsimp only at hS
        rw [hS]
        simp [dispatchedNamed]

theorem afterPlan_ok_env (env : Env) (patient exam_r plan pc srv : Value) (v : Value)
    (hpc : plan.getKey? "preventive_care" = some pc)
    (hcond : truthy (dictGet pc "immediate_cleaning") = false)
    (hsr : plan.getKey? "specialist_referrals" = some srv)
    (hv : (afterPlan env patient exam_r plan).2 = .ok v) :
    ∀ t, Event.dispatched t ∈ (afterPlan env patient exam_r plan).1 →
      ∃ r, env t = .ok r := by
  have hcond' : ¬(truthy (dictGet pc "immediate_cleaning") = true) := by
    simp [hcond]
  unfold afterPlan at hv ⊢
  rw [hpc] at hv ⊢
  dsimp only at hv ⊢
  rw [if_neg hcond'] at hv ⊢
  dsimp only [coordinate_treatment, manage_patient_care] at hv ⊢
  rcases hdc : dispatch env (coordinationTask plan) treatment_coordinator with ⟨trC, resC⟩
  rw [hdc] at hv
  cases resC with
  | error e => simp at hv
  | ok vc =>
    rw [hsr] at hv ⊢
    dsimp only at hv ⊢
    cases hpi : pyIter srv with
    | error e => rw [hpi] at hv; simp at hv
    | ok refs =>
      rw [hpi] at hv
      dsimp only at hv ⊢
      rcases hsl : specialistLoop env refs with ⟨trS, resS⟩
      rw [hsl] at hv
      cases resS with
      | error e => simp at hv
      | ok rs =>
        rcases hdp : dispatch env (careTask patient) patient_care_coordinator with ⟨trP, resP⟩
        rw [hdp] at hv
        cases resP with
        | error e => simp at hv
        | ok vp =>
          dsimp only
          intro t ht
          rw [List.append_assoc, List.append_assoc] at ht
          rcases List.mem_append.mp ht with hm | hm
          · exact absurd hm (by simp)
          rcases List.mem_append.mp hm with hm2 | hm2
          · have ht' := mem_dispatch_fst env (coordinationTask plan) t treatment_coordinator
            rw [hdc] at ht'
            have := ht' hm2
            subst this
            exact ⟨vc, dispatch_snd_ok env (coordinationTask plan) treatment_coordinator vc
              (by rw [hdc])⟩
          rcases List.mem_append.mp hm2 with hm3 | hm3
          · have := specialistLoop_ok_env env refs rs (by rw [hsl])
            rw [hsl] at this
            exact this t hm3
          · have ht' := mem_dispatch_fst env (careTask patient) t patient_care_coordinator
            rw [hdp] at ht'
            have := ht' hm3
            subst this
            exact ⟨vp, dispatch_snd_ok env (careTask patient) patient_care_coordinator vp
              (by rw [hdp])⟩

theorem afterPlan_no_hygiene (env : Env) (patient exam_r plan pc srv : Value)
    (hpc : plan.getKey? "preventive_care" = some pc)
    (hcond : truthy (dictGet pc "immediate_cleaning") = false)
    (hsr : plan.getKey? "specialist_referrals" = some srv) :
    dispatchedNamed (afterPlan env patient exam_r plan).1 "Dental Hygiene" = [] := by
  have hcond' : ¬(truthy (dictGet pc "immediate_cleaning") = true) := by
    simp [hcond]
  unfold afterPlan
  rw [hpc]
  dsimp only
  rw [if_neg hcond']
  dsimp only [coordinate_treatment, manage_patient_care]
  rcases hdc : dispatch env (coordinationTask plan) treatment_coordinator with ⟨trC, resC⟩
  have hC : dispatchedNamed trC "Dental Hygiene" = [] :=
    dispatchedNamed_of_dispatch_ne env (coordinationTask plan)
      treatment_coordinator "Dental Hygiene" trC resC rfl hdc
  cases resC with
  | error e =>
    dsimp only
    rw [dispatchedNamed_append, hC]
    rfl
  | ok vc =>
    rw [hsr]
    dsimp only
    cases hpi : pyIter srv with
    | error e =>
      dsimp only
      rw [dispatchedNamed_append, hC]
      rfl
    | ok refs =>
      dsimp only
      rcases hsl : specialistLoop env refs with ⟨trS, resS⟩
      have hS : dispatchedNamed trS "Dental Hygiene" = [] := by
        have := specialistLoop_named env refs "Dental Hygiene" rfl
        rw [hsl] at this
        exact this
      cases resS with
      | error e =>
        dsimp only
        rw [dispatchedNamed_append, dispatchedNamed_append, hC, hS]
        rfl
      | ok rs =>
        rcases hdp : dispatch env (careTask patient) patient_care_coordinator with ⟨trP, resP⟩
        have hP : dispatchedNamed trP "Dental Hygiene" = [] :=
          dispatchedNamed_of_dispatch_ne env (careTask patient)
            patient_care_coordinator "Dental Hygiene" trP resP rfl hdp
        cases resP with
        | error e =>
          dsimp only
          rw [dispatchedNamed_append, dispatchedNamed_append, dispatchedNamed_append,
            hC, hS, hP]
          rfl
        | ok vp =>
          dsimp only
          rw [dispatchedNamed_append, dispatchedNamed_append, dispatchedNamed_append,
            hC, hS, hP]
          rfl

theorem runInner_ok_env (env : Env) (p : Value) (v : Value)
    (h : (runInner env p).2 = .ok v) :
    ∀ t, Event.dispatched t ∈ (runInner env p).1 → ∃ r, env t = .ok r := by
  cases hex : env (examTask p) with
  | error msg =>
    have hd := dispatch_error_eq env (examTask p) general_dentist msg (examTask_cap p) hex
    unfold runInner initial_examination at h
    rw [hd] at h
    simp at h
  | ok er =>
    have hd := dispatch_ok_eq env (examTask p) general_dentist er (examTask_cap p) hex
    unfold runInner initial_examination at h ⊢
    rw [hd] at h ⊢
    dsimp only at h ⊢
    cases hcp : create_treatment_plan er with
    | error e =>
      rw [hcp] at h
      simp at h
    | ok plan =>
      rw [hcp] at h
      dsimp only at h ⊢
      intro t ht
      simp at ht
      rcases ht with rfl | h1
      · exact ⟨er, hex⟩
      · exact afterPlan_ok_env env p er plan pcLit
          ((er.getKey? "referral_needs").getD (.list [])) v (plan_preventive_of_ok hcp)
          truthy_pcLit (plan_referrals_of_ok hcp) h t h1

theorem run_allOk (env : Env) (patient exam_r plan srv : Value) (refs : List Value)
    (Hok : ∀ t, ∃ v, env t = .ok v)
    (He : env (examTask patient) = .ok exam_r)
    (Hp : create_treatment_plan exam_r = .ok plan)
    (hsr : plan.getKey? "specialist_referrals" = some srv)
    (hrefs : pyIter srv = .ok refs) :
    run_dental_care_workflow env patient =
      { trace :=
          .dispatched (examTask patient)
            :: .taskCompleted "Initial Examination" exam_r
            :: .planCreated plan
            :: .dispatched (coordinationTask plan)
            :: .taskCompleted "Treatment Coordination" (okOr (env (coordinationTask plan)))
            :: (specTrace env refs
                ++ [.dispatched (careTask patient),
                    .taskCompleted "Patient Care Management" (okOr (env (careTask patient)))]),
        result := some (.obj
          [("examination", exam_r),
           ("treatment_plan", plan),
           ("coordination_status", okOr (env (coordinationTask plan))),
           ("specialist_consultations", .list (specResults env refs)),
           ("patient_care_status", okOr (env (careTask patient)))]),
        printed := [] } := by
  have hpc := plan_preventive_of_ok Hp
  have ha := afterPlan_allOk env patient exam_r plan pcLit srv refs Hok hpc
    truthy_pcLit hsr hrefs
  have hre := runInner_eq env patient exam_r plan He Hp
  have hri : runInner env patient =
      (.dispatched (examTask patient)
        :: .taskCompleted "Initial Examination" exam_r
        :: .planCreated plan
        :: .dispatched (coordinationTask plan)
        :: .taskCompleted "Treatment Coordination" (okOr (env (coordinationTask plan)))
        :: (specTrace env refs
            ++ [.dispatched (careTask patient),
                .taskCompleted "Patient Care Management" (okOr (env (careTask patient)))]),
       .ok (.obj
         [("examination", exam_r),
          ("treatment_plan", plan),
          ("coordination_status", okOr (env (coordinationTask plan))),
          ("specialist_consultations", .list (specResults env refs)),
          ("patient_care_status", okOr (env (careTask patient)))])) := by
    rw [hre, ha]
  exact run_eq_of_ok env patient _ _ hri

theorem dispatchedNamed_cons_taskCompleted (n : String) (r : Value) (l : List Event)
    (m : String) : dispatchedNamed (.taskCompleted n r :: l) m = dispatchedNamed l m := rfl

theorem dispatchedNamed_cons_planCreated (p : Value) (l : List Event) (m : String) :
    dispatchedNamed (.planCreated p :: l) m = dispatchedNamed l m := rfl

theorem dispatchedNamed_cons_dispatched_ne (t : Task) (l : List Event) (m : String)
    (h : (t.name == m) = false) :
    dispatchedNamed (.dispatched t :: l) m = dispatchedNamed l m := by
  unfold dispatchedNamed
  rw [List.filterMap_cons]
  dsimp only
  rw [h]
  rfl

theorem map_parameters_specialistTask (refs : List Value) :
    (refs.map specialistTask).map Task.parameters = refs := by
  induction refs with
  | nil => rfl
  | cons r rest ih => simp [specialistTask, ih]

/-! ## Claim theorems -/

/-- C1: for the examination result with a single orthodontic referral and
patient P1, `run_dental_care_workflow` produces a treatment plan whose
`specialist_referrals` list has exactly one element, and exactly one
SpecialistConsultation task is dispatched, with parameters equal to the
referral dict `{"specialist": "ortho"}`. -/
theorem claim_C1_end_to_end :
    create_treatment_plan examOrtho = .ok planOrtho ∧
    planOrtho.getKey? "specialist_referrals" = some (.list [refOrtho]) ∧
    (dispatchedNamed (run_dental_care_workflow envOrtho patientP1).trace
        "Specialist Consultation").map Task.parameters = [refOrtho] :=
  ⟨rfl, rfl, rfl⟩

/-- C2: on every successful run, the workflow dispatches exactly one
SpecialistConsultation task per referral of the plan's
`specialist_referrals` list, in list order, each carrying that referral as
its parameters unchanged. -/
theorem claim_C2_fanout_fidelity (env : Env) (patient exam_r plan : Value)
    (refs : List Value)
    (Hexam : env (examTask patient) = .ok exam_r)
    (Hplan : create_treatment_plan exam_r = .ok plan)
    (Hrefs : plan.getKey? "specialist_referrals" = some (.list refs))
    (Hsucc : (run_dental_care_workflow env patient).result.isSome = true) :
    (dispatchedNamed (run_dental_care_workflow env patient).trace
        "Specialist Consultation").map Task.parameters = refs := by
  obtain ⟨tr, v, hri⟩ := run_isSome_inv env patient Hsucc
  have hre := runInner_eq env patient exam_r plan Hexam Hplan
  have hcomb := hre.symm.trans hri
  have hAok : (afterPlan env patient exam_r plan).2 = .ok v := by
    have := congrArg Prod.snd hcomb
    simpa using this
  rw [run_trace_fst, hre]
  dsimp only
  rw [dispatchedNamed_cons_dispatched_ne (examTask patient) _ "Specialist Consultation" rfl]
  rw [dispatchedNamed_cons_taskCompleted, dispatchedNamed_cons_planCreated]
  rw [afterPlan_ok_named env patient exam_r plan pcLit refs v
    (plan_preventive_of_ok Hplan) truthy_pcLit Hrefs hAok]
  exact map_parameters_specialistTask refs

/-- Witness for C2 at the end-to-end scenario input. -/
theorem claim_C2_witness :
    (dispatchedNamed (run_dental_care_workflow envOrtho patientP1).trace
        "Specialist Consultation").map Task.parameters = [refOrtho] :=
  claim_C2_fanout_fidelity envOrtho patientP1 examOrtho planOrtho [refOrtho]
    rfl rfl rfl rfl

/-- C3: if any dispatched step raises (its environment outcome is an error),
`run_dental_care_workflow` does not produce a WorkflowResult: it returns
`None` and prints an error line instead of propagating the exception. -/
theorem claim_C3_failure_observable (env : Env) (patient : Value) (t : Task)
    (msg : String)
    (hmem : Event.dispatched t ∈ (run_dental_care_workflow env patient).trace)
    (henv : env t = .error msg) :
    (run_dental_care_workflow env patient).result = Option.none ∧
      (run_dental_care_workflow env patient).printed ≠ [] := by
  rcases hr : runInner env patient with ⟨tr, r⟩
  cases r with
  | ok v =>
    exfalso
    have hmem2 : Event.dispatched t ∈ (runInner env patient).1 := by
      rw [← run_trace_fst]
      exact hmem
    obtain ⟨r2, hr2⟩ := runInner_ok_env env patient v (by rw [hr]) t hmem2
    rw [henv] at hr2
    exact Except.noConfusion hr2
  | error e =>
    rw [run_eq_of_error env patient tr e hr]
    exact ⟨rfl, by simp⟩

/-- Witness for C3: with every worker failing, the examination dispatch
raises and the driver returns None after printing an error line. -/
theorem claim_C3_witness :
    (run_dental_care_workflow envFail patientP1).result = Option.none ∧
      (run_dental_care_workflow envFail patientP1).printed ≠ [] :=
  claim_C3_failure_observable envFail patientP1 (examTask patientP1) "worker timeout"
    (by rw [show (run_dental_care_workflow envFail patientP1).trace =
          [Event.dispatched (examTask patientP1)] from rfl]
        exact List.Mem.head _)
    rfl

/-- C4 counterexample: `create_treatment_plan` does depend on its input:
two different examination results give two different plans. -/
theorem claim_C4_counterexample :
    create_treatment_plan examOrtho ≠ create_treatment_plan (Value.obj []) := by
  intro h
  have h2 : (1 : Nat) = 0 := congrArg referralCount h
  exact absurd h2 (by decide)

/-- C4 amended: `create_treatment_plan` returns a dict whose
`preventive_care` and `estimated_timeline` values are fixed literals but
whose `specialist_referrals` (likewise `restorative_care` and
`priority_procedures`) is read from the input via `.get`;
`_design_treatment_plan` and `_arrange_support_services` never return a
dictionary at all: each calls a helper method undefined on the class and
raises AttributeError. -/
theorem claim_C4_amended (e1 e2 p1 p2 : Value)
    (h1 : create_treatment_plan e1 = .ok p1)
    (h2 : create_treatment_plan e2 = .ok p2) :
    (dictGet p1 "preventive_care" = dictGet p2 "preventive_care" ∧
      dictGet p1 "estimated_timeline" = dictGet p2 "estimated_timeline") ∧
    dictGet p1 "specialist_referrals" = (e1.getKey? "referral_needs").getD (.list []) ∧
    design_treatment_plan e1 = .error (.attributeError "_identify_alternatives") ∧
    arrange_support_services e1 = .error (.attributeError "_setup_counseling") := by
  obtain ⟨f1, he1, hp1⟩ := create_plan_ok h1
  obtain ⟨f2, he2, hp2⟩ := create_plan_ok h2
  subst hp1
  subst hp2
  subst he1
  exact ⟨⟨rfl, rfl⟩, rfl, rfl, rfl⟩

/-- Witness for C4's amended claim at two concrete examination results. -/
theorem claim_C4_witness :
    (dictGet planOrtho "preventive_care" = dictGet planEmpty "preventive_care" ∧
      dictGet planOrtho "estimated_timeline" = dictGet planEmpty "estimated_timeline") ∧
    dictGet planOrtho "specialist_referrals" =
      (examOrtho.getKey? "referral_needs").getD (.list []) ∧
    design_treatment_plan examOrtho = .error (.attributeError "_identify_alternatives") ∧
    arrange_support_services examOrtho = .error (.attributeError "_setup_counseling") :=
  claim_C4_amended examOrtho (Value.obj []) planOrtho planEmpty rfl rfl

/-- C5: in every execution, whenever a treatment plan is created, the
Examination task's result was obtained first: the trace starts with the
examination dispatch, its completion, and only then the plan creation. -/
theorem claim_C5_exam_before_plan (env : Env) (patient p : Value)
    (hmem : Event.planCreated p ∈ (run_dental_care_workflow env patient).trace) :
    ∃ r plan, env (examTask patient) = .ok r ∧ create_treatment_plan r = .ok plan ∧
      (run_dental_care_workflow env patient).trace.take 3 =
        [.dispatched (examTask patient), .taskCompleted "Initial Examination" r,
         .planCreated plan] := by
  rw [run_trace_fst] at hmem ⊢
  cases hex : env (examTask patient) with
  | error msg =>
    have hd := dispatch_error_eq env (examTask patient) general_dentist msg
      (examTask_cap patient) hex
    unfold runInner initial_examination at hmem
    rw [hd] at hmem
    simp at hmem
  | ok er =>
    have hd := dispatch_ok_eq env (examTask patient) general_dentist er
      (examTask_cap patient) hex
    cases hcp : create_treatment_plan er with
    | error e =>
      unfold runInner initial_examination at hmem
      rw [hd] at hmem
      dsimp only at hmem
      rw [hcp] at hmem
      simp at hmem
    | ok plan =>
      refine ⟨er, plan, rfl, hcp, ?_⟩
      rw [runInner_eq env patient er plan hex hcp]
      rfl

/-- Witness for C5 at the end-to-end scenario input. -/
theorem claim_C5_witness :
    ∃ r plan, envOrtho (examTask patientP1) = .ok r ∧
      create_treatment_plan r = .ok plan ∧
      (run_dental_care_workflow envOrtho patientP1).trace.take 3 =
        [.dispatched (examTask patientP1), .taskCompleted "Initial Examination" r,
         .planCreated plan] :=
  claim_C5_exam_before_plan envOrtho patientP1 planOrtho
    (by rw [show (run_dental_care_workflow envOrtho patientP1).trace =
          Event.dispatched (examTask patientP1)
            :: Event.taskCompleted "Initial Examination" examOrtho
            :: Event.planCreated planOrtho
            :: Event.dispatched (coordinationTask planOrtho)
            :: Event.taskCompleted "Treatment Coordination" resultDone
            :: Event.dispatched (specialistTask refOrtho)
            :: Event.taskCompleted "Specialist Consultation" resultDone
            :: Event.dispatched (careTask patientP1)
            :: [Event.taskCompleted "Patient Care Management" resultDone] from rfl]
        exact List.Mem.tail _ (List.Mem.tail _ (List.Mem.head _)))

/-- C6: when the plan's `preventive_care` mapping has no truthy
`immediate_cleaning` flag, the HygieneScheduling (Dental Hygiene) task is
never dispatched, and the skip is not a failure: with all workers
succeeding the run still returns a result. -/
theorem claim_C6_hygiene_skip (env : Env) (patient exam_r plan : Value)
    (Hexam : env (examTask patient) = .ok exam_r)
    (Hplan : create_treatment_plan exam_r = .ok plan)
    (_Hflag : truthy (dictGet (dictGet plan "preventive_care") "immediate_cleaning")
      = false) :
    dispatchedNamed (run_dental_care_workflow env patient).trace "Dental Hygiene" = [] ∧
    ((∀ t, ∃ v, env t = .ok v) →
      ∀ srv refs, plan.getKey? "specialist_referrals" = some srv →
        pyIter srv = .ok refs →
        (run_dental_care_workflow env patient).result.isSome = true) := by
  constructor
  · rw [run_trace_fst, runInner_eq env patient exam_r plan Hexam Hplan]
    rw [dispatchedNamed_cons_dispatched_ne (examTask patient) _ "Dental Hygiene" rfl]
    rw [dispatchedNamed_cons_taskCompleted, dispatchedNamed_cons_planCreated]
    exact afterPlan_no_hygiene env patient exam_r plan pcLit
      ((exam_r.getKey? "referral_needs").getD (.list []))
      (plan_preventive_of_ok Hplan) truthy_pcLit (plan_referrals_of_ok Hplan)
  · intro Hok srv refs hsr hrefs
    rw [run_allOk env patient exam_r plan srv refs Hok Hexam Hplan hsr hrefs]
    rfl

/-- Witness for C6 at the end-to-end scenario input. -/
theorem claim_C6_witness :
    dispatchedNamed (run_dental_care_workflow envOrtho patientP1).trace
      "Dental Hygiene" = [] ∧
    ((∀ t, ∃ v, envOrtho t = .ok v) →
      ∀ srv refs, planOrtho.getKey? "specialist_referrals" = some srv →
        pyIter srv = .ok refs →
        (run_dental_care_workflow envOrtho patientP1).result.isSome = true) :=
  claim_C6_hygiene_skip envOrtho patientP1 examOrtho planOrtho rfl rfl rfl

/-- C7 counterexample: the post-plan tasks are not launched concurrently:
in a concrete successful run with one referral, the Treatment Coordination
task's completion occurs strictly before the Specialist Consultation task
is dispatched, because each dispatch suspends until its task completes. -/
theorem claim_C7_counterexample :
    completionPrecedesDispatch (run_dental_care_workflow envOrtho patientP1).trace
      "Treatment Coordination" "Specialist Consultation" = true := rfl

/-- C7 amended: once PlanCreation has completed, the Coordination task,
each SpecialistConsultation (one per referral, in list order) and the
PatientCareManagement task are dispatched sequentially in that order, each
dispatch suspending until its task completes; `asyncio.gather` then
re-awaits the already-completed tasks, and Aggregation builds the
WorkflowResult only after all of them have completed. -/
theorem claim_C7_amended (env : Env) (patient exam_r plan srv : Value)
    (refs : List Value)
    (Hok : ∀ t, ∃ v, env t = .ok v)
    (He : env (examTask patient) = .ok exam_r)
    (Hp : create_treatment_plan exam_r = .ok plan)
    (hsr : plan.getKey? "specialist_referrals" = some srv)
    (hrefs : pyIter srv = .ok refs) :
    (run_dental_care_workflow env patient).trace =
      .dispatched (examTask patient)
        :: .taskCompleted "Initial Examination" exam_r
        :: .planCreated plan
        :: .dispatched (coordinationTask plan)
        :: .taskCompleted "Treatment Coordination" (okOr (env (coordinationTask plan)))
        :: (specTrace env refs
            ++ [.dispatched (careTask patient),
                .taskCompleted "Patient Care Management" (okOr (env (careTask patient)))]) ∧
    (run_dental_care_workflow env patient).result.isSome = true := by
  rw [run_allOk env patient exam_r plan srv refs Hok He Hp hsr hrefs]
  exact ⟨rfl, rfl⟩

/-- Witness for C7's amended claim at the end-to-end scenario input. -/
theorem claim_C7_witness :
    (run_dental_care_workflow envOrtho patientP1).trace =
      .dispatched (examTask patientP1)
        :: .taskCompleted "Initial Examination" examOrtho
        :: .planCreated planOrtho
        :: .dispatched (coordinationTask planOrtho)
        :: .taskCompleted "Treatment Coordination" resultDone
        :: (specTrace envOrtho [refOrtho]
            ++ [.dispatched (careTask patientP1),
                .taskCompleted "Patient Care Management" resultDone]) ∧
    (run_dental_care_workflow envOrtho patientP1).result.isSome = true :=
  claim_C7_amended envOrtho patientP1 examOrtho planOrtho (.list [refOrtho]) [refOrtho]
    (by intro t
        by_cases h : (t.name == "Initial Examination") = true
        · exact ⟨examOrtho, by unfold envOrtho; rw [h]; rfl⟩
        · have h2 : (t.name == "Initial Examination") = false := by simpa using h
          exact ⟨resultDone, by unfold envOrtho; rw [h2]; rfl⟩)
    rfl rfl rfl rfl

/-- C8: dispatching a task whose required capability set is not a subset of
the worker's capability set fails with a CapabilityMismatch error (and so
never silently succeeds). -/
theorem claim_C8_capability_mismatch (env : Env) (t : Task) (w : TaskExecutor)
    (h : (t.required_expertise.all (fun c => w.expertise.contains c)) = false) :
    (dispatch env t w).2 = .error (.capabilityMismatch t.name w.name) := by
  rw [dispatch_cap_false_eq env t w h]

/-- Witness for C8: the hygiene task dispatched to the general dentist. -/
theorem claim_C8_witness :
    (dispatch envOrtho (hygieneTask (.str "P1") "comprehensive_cleaning")
      general_dentist).2 =
      .error (.capabilityMismatch "Dental Hygiene" "General Dentist") :=
  claim_C8_capability_mismatch envOrtho
    (hygieneTask (.str "P1") "comprehensive_cleaning") general_dentist rfl

/-- C9: for every preferences dict, `create_care_plan` raises (it never
returns a care-plan dictionary), because `_design_treatment_plan`
unconditionally calls the undefined method `_identify_alternatives`. -/
theorem claim_C9_care_plan_raises (fields : List (String × Value)) :
    create_care_plan (Value.obj fields) =
      .error (.attributeError "_identify_alternatives") := rfl

/-- C10: the HygieneScheduling task is never dispatched for any input,
because `create_treatment_plan`'s `preventive_care` value is a fixed
literal without an `immediate_cleaning` key, so the trigger is always
falsy. -/
theorem claim_C10_hygiene_never (env : Env) (patient : Value) :
    dispatchedNamed (run_dental_care_workflow env patient).trace "Dental Hygiene" = [] := by
  rw [run_trace_fst]
  cases hex : env (examTask patient) with
  | error msg =>
    have hd := dispatch_error_eq env (examTask patient) general_dentist msg
      (examTask_cap patient) hex
    unfold runInner initial_examination
    rw [hd]
    rfl
  | ok er =>
    have hd := dispatch_ok_eq env (examTask patient) general_dentist er
      (examTask_cap patient) hex
    cases hcp : create_treatment_plan er with
    | error e =>
      unfold runInner initial_examination
      rw [hd]
      dsimp only
      rw [hcp]
      rfl
    | ok plan =>
      rw [runInner_eq env patient er plan hex hcp]
      rw [dispatchedNamed_cons_dispatched_ne (examTask patient) _ "Dental Hygiene" rfl]
      rw [dispatchedNamed_cons_taskCompleted, dispatchedNamed_cons_planCreated]
      exact afterPlan_no_hygiene env patient er plan pcLit
        ((er.getKey? "referral_needs").getD (.list []))
        (plan_preventive_of_ok hcp) truthy_pcLit (plan_referrals_of_ok hcp)

end MedFuse
